import Mathlib

/-!
Shallow embedding of the Yofarm Hub B2B USSD registration service
(`services.py`): the user data model, the Firestore-backed user store
(modelled as a partial map from phone numbers to records), the payment
provider interactions (modelled by their observable outcomes), and the
USSD conversation handler `USSDHandler` with its three lifecycle flows.

Conventions of the embedding:
* The document store is `DB := String → Option UserRec`; `set(merge=True)`
  with a full field dictionary is a whole-record write, `update` on an
  absent document fails (errors are caught in the source and leave the
  store unchanged), `delete` removes the record.
* Timestamp fields (`created_at`, `updated_at`) are set on every write and
  carry no flow-relevant information; they are omitted from the record.
* Remote payment calls are modelled by the data the handler observes:
  `initiate_collection` by a success flag plus the provider transaction id
  (`""` models an absent id), `check_transaction_status` by a
  reachability flag plus the raw provider status string.
* Python string primitives are modelled explicitly on character lists:
  `str.strip()` by `pyStrip` (drop whitespace from both ends),
  `str.lower()` by `pyLower` (ASCII lowercasing) and `text.split("*")`
  by `pySplit · '*'` (split on a single-character delimiter, keeping
  empty fields, so `"".split` gives one empty field).
* Handler outputs carry, besides the response and the updated store, the
  number of collection-initiation calls and of status-check calls made
  during the callback, so call-count claims are statable.
-/

namespace Ussd

/-- Model of Python `str.strip()`: drop ASCII whitespace from both ends
of the character sequence. -/
def pyStrip (s : String) : String :=
  String.mk
    (((s.toList.dropWhile Char.isWhitespace).reverse.dropWhile Char.isWhitespace).reverse)

/-- Model of Python `str.lower()` on the ASCII range: shift each
uppercase letter down by 32 code points. -/
def lowerChar (c : Char) : Char :=
  if 'A' ≤ c ∧ c ≤ 'Z' then Char.ofNat (c.toNat + 32) else c

/-- Model of Python `str.lower()`. -/
def pyLower (s : String) : String :=
  String.mk (s.toList.map lowerChar)

/-- Model of Python `str.split(sep)` for a one-character separator:
cut at every occurrence, keeping empty fields, so the result always has
one more field than there are separators. -/
def splitCharList (sep : Char) : List Char → List (List Char)
  | [] => [[]]
  | c :: cs =>
      let r := splitCharList sep cs
      if c = sep then [] :: r
      else
        match r with
        | [] => [[c]]
        | t :: ts => (c :: t) :: ts

/-- Model of Python `text.split(sep)` on strings. -/
def pySplit (s : String) (sep : Char) : List String :=
  (splitCharList sep s.toList).map String.mk

/-- The `User` dataclass of `services.py` (timestamps omitted, see the
module comment). Field defaults mirror the dataclass defaults. -/
structure UserRec where
  phone : String
  name : String := ""
  role : String := ""
  location : String := ""
  package : String := ""
  status : String := "new"
  transaction_id : String := ""
deriving Repr, DecidableEq

/-- The user document store, keyed by phone number. -/
def DB : Type := String → Option UserRec

/-- `Config.INQUIRY_PHONE` (from the configuration of the service). -/
def INQUIRY_PHONE : String := "0200947464"

/-- `UserService.get_user`: retrieve a user by phone number. -/
def get_user (db : DB) (phone : String) : Option UserRec :=
  db phone

/-- `UserService.save_user`: `set(user_data, merge=True)` where
`user_data` always carries every field of the record, hence a
whole-record write at the record's phone key. -/
def save_user (db : DB) (u : UserRec) : DB :=
  fun p => if p = u.phone then some u else db p

/-- `UserService.delete_user`: remove the document at the phone key. -/
def delete_user (db : DB) (phone : String) : DB :=
  fun p => if p = phone then none else db p

/-- `UserService.update_user_status`: Firestore `update` writes `status`
(always) and `transaction_id` (only when the argument is truthy, i.e.
non-empty); updating an absent document raises, the error is caught and
the store is left unchanged. -/
def update_user_status (db : DB) (phone status transaction_id : String) : DB :=
  fun p =>
    if p = phone then
      match db p with
      | some u =>
          some { u with
                 status := status,
                 transaction_id :=
                   if transaction_id ≠ "" then transaction_id else u.transaction_id }
      | none => none
    else db p

/-- Observable outcome of `PaymentService.initiate_collection`:
the `success` flag of the returned dictionary and the provider
transaction id (`result.get('id')`; `""` models an absent id). -/
structure InitResult where
  success : Bool
  transaction_id : String
deriving Repr, DecidableEq

/-- Observable behaviour of the remote provider during one callback:
the collection-initiation outcome (used when the handler initiates or
retries a payment) and the status-check outcome (reachability of the
status endpoint plus the raw provider status string). -/
structure PayEnv where
  init : InitResult
  statusReachable : Bool
  providerStatus : String
deriving Repr, DecidableEq

/-- The `status_mapping` table of `PaymentService.check_transaction_status`,
with the dictionary `.get(status, 'failed')` fallback. -/
def status_mapping (s : String) : String :=
  if s = "success" then "registered"
  else if s = "failed" then "failed"
  else if s = "pending" then "pending"
  else if s = "senttovendor" then "pending"
  else "failed"

/-- `PaymentService.check_transaction_status`, reduced to its pure core:
lowercase the provider status string and map it through the table. -/
def check_transaction_status_map (provider_status : String) : String :=
  status_mapping (pyLower provider_status)

/-- A USSD response: `response_type` is `"CON"` or `"END"`. -/
structure Resp where
  response_type : String
  message : String
deriving Repr, DecidableEq

/-- `USSDHandler.create_response`. -/
def create_response (response_type message : String) : Resp :=
  ⟨response_type, message⟩

/-- Result of handling one callback: the updated store, the response, and
the number of payment-provider calls of each kind made while handling. -/
structure Out where
  db : DB
  resp : Resp
  initiations : Nat := 0
  statusChecks : Nat := 0

/-- `USSDHandler.parse_text`: `none` models a missing `text` field; the
raw text is stripped and, unless blank, split on the `*` delimiter. -/
def parse_text : Option String → List String
  | none => []
  | some raw =>
      let text := pyStrip raw
      if text = "" ∨ text = " " then []
      else pySplit text '*'

/-- The `roles_map` table of `USSDHandler.handle_new_user_flow`. -/
def roles_map : String → Option String
  | "1" => some "Farmer"
  | "2" => some "Buyer"
  | "3" => some "Service Provider"
  | _ => none

/-- The `package_map` table of `USSDHandler.handle_new_user_flow`. -/
def package_map : String → Option String
  | "1" => some "Yofarm Access"
  | _ => none

/-- `USSDHandler.initiate_payment_for_new_user`: initiate the collection;
on success save the record with the returned transaction id and status
`pending`, otherwise save it with status `failed`. -/
def initiate_payment_for_new_user (db : DB) (env : PayEnv) (user : UserRec) : Out :=
  if env.init.success then
    { db := save_user db
        { user with transaction_id := env.init.transaction_id, status := "pending" },
      resp := create_response "END" "Payment request sent. Confirm on your phone.",
      initiations := 1 }
  else
    { db := save_user db { user with status := "failed" },
      resp := create_response "END"
        "We cannot process your payment at the moment. Please try again later.",
      initiations := 1 }

/-- `USSDHandler.handle_new_user_flow`: the strict linear registration
sequence keyed by the number of accumulated inputs. Token accesses
`parts[i]` in the source are guarded by the preceding length checks, so
`parts.getD i ""` coincides with them on every reachable path. -/
def handle_new_user_flow (phone : String) (db : DB) (env : PayEnv)
    (parts : List String) : Out :=
  if parts.length = 0 then
    { db := db, resp := create_response "CON"
        "Welcome to Yofarm Hub B2B\n1. Register\n2. Exit" }
  else
    let first := parts.getD 0 ""
    if first ≠ "1" ∧ first ≠ "2" then
      { db := db, resp := create_response "END"
          "Invalid choice. Please dial again. Thank you." }
    else if first = "2" then
      { db := db, resp := create_response "END"
          "Thank you for your interest. Goodbye." }
    else if parts.length = 1 then
      { db := db, resp := create_response "CON" "Enter your full name:" }
    else
      let name := pyStrip (parts.getD 1 "")
      if name = "" then
        { db := db, resp := create_response "CON" "Enter your full name:" }
      else if parts.length = 2 then
        { db := db, resp := create_response "CON"
            "Select your role:\n1. Farmer\n2. Buyer\n3. Service Provider" }
      else
        match roles_map (parts.getD 2 "") with
        | none =>
            { db := db, resp := create_response "END"
                "Invalid role selection. Session ended." }
        | some role =>
          if parts.length = 3 then
            { db := db, resp := create_response "CON"
                "Enter your Location (District):" }
          else
            let location := pyStrip (parts.getD 3 "")
            if location = "" then
              { db := db, resp := create_response "CON"
                  "Enter your Location (District):" }
            else if parts.length = 4 then
              { db := db, resp := create_response "CON"
                  "By continuing, you agree to our Privacy Policy & Terms.\n1. Accept\n2. Decline" }
            else
              let decision := parts.getD 4 ""
              if decision ≠ "1" ∧ decision ≠ "2" then
                { db := db, resp := create_response "END"
                    "Invalid input. Session ended." }
              else if decision = "2" then
                { db := db, resp := create_response "END"
                    "You must accept the Privacy Policy to use Yofarm Hub B2B. Thank you." }
              else if parts.length = 5 then
                { db := db, resp := create_response "CON"
                    "Choose membership:\n1. Yofarm Access - UGX 9,999\n" }
              else
                match package_map (parts.getD 5 "") with
                | none =>
                    { db := db, resp := create_response "END"
                        "Invalid package selection. Session ended." }
                | some package =>
                  if parts.length = 6 then
                    { db := db, resp := create_response "CON"
                        ("You selected " ++ package ++
                         ".\nPay via Mobile Money?\n1. Yes\n2. Cancel") }
                  else
                    let pay_choice := parts.getD 6 ""
                    if pay_choice ≠ "1" ∧ pay_choice ≠ "2" then
                      { db := db, resp := create_response "END"
                          "Invalid option. Session ended." }
                    else if pay_choice = "2" then
                      { db := db, resp := create_response "END"
                          "Your registration was cancelled. Dial again to register." }
                    else
                      initiate_payment_for_new_user db env
                        { phone := phone, name := name, role := role,
                          location := location, package := package }

/-- `USSDHandler.retry_payment`: re-initiate the collection; on success
update the status to `pending` with the new transaction id, otherwise
update the status to `failed`. -/
def retry_payment (db : DB) (env : PayEnv) (user : UserRec) : Out :=
  if env.init.success then
    { db := update_user_status db user.phone "pending" env.init.transaction_id,
      resp := create_response "END" "Payment request sent. Confirm on your phone.",
      initiations := 1 }
  else
    { db := update_user_status db user.phone "failed" "",
      resp := create_response "END"
        "We cannot process your payment at the moment. Please try again later.",
      initiations := 1 }

/-- `USSDHandler.confirm_payment`: with no stored transaction id,
terminate without contacting the provider; otherwise check the
transaction status, persist the mapped status and answer with the
state-specific terminal message. -/
def confirm_payment (db : DB) (env : PayEnv) (user : UserRec) : Out :=
  if user.transaction_id = "" then
    { db := db, resp := create_response "END"
        "No transaction found. Please restart registration." }
  else if env.statusReachable = false then
    { db := db, resp := create_response "END"
        "Unable to check payment status. Please try again later.",
      statusChecks := 1 }
  else
    let new_status := check_transaction_status_map env.providerStatus
    let db' := update_user_status db user.phone new_status ""
    if new_status = "registered" then
      { db := db', resp := create_response "END"
          ("Thank you " ++ user.name ++ "!\nYou're now registered as a " ++
           user.role ++ " in " ++ user.location ++
           ". We'll get back to you ASAP.\nInquiries: " ++ INQUIRY_PHONE),
        statusChecks := 1 }
    else if new_status = "failed" then
      { db := db', resp := create_response "END" "Payment failed. Try again later.",
        statusChecks := 1 }
    else
      { db := db', resp := create_response "END" "Payment is pending. Confirm again later",
        statusChecks := 1 }

/-- `USSDHandler.handle_incomplete_registration`: menu for users whose
status is `pending` or `failed`; `"1"` dispatches to confirm/retry,
`"2"` deletes the record, anything else is invalid. -/
def handle_incomplete_registration (phone : String) (db : DB) (env : PayEnv)
    (parts : List String) (user : UserRec) : Out :=
  if parts.length = 0 then
    let option_text :=
      if user.status = "failed" then "1. Retry payment for " ++ user.package
      else "1. Confirm payment for " ++ user.package
    { db := db, resp := create_response "CON"
        ("Welcome back " ++ user.name ++ ". Your registration is incomplete.\n" ++
         option_text ++ "\n2. Restart registration") }
  else
    let choice := parts.getD 0 ""
    if choice ≠ "1" ∧ choice ≠ "2" then
      { db := db, resp := create_response "END" "Invalid option. Session ended." }
    else if choice = "2" then
      { db := delete_user db phone,
        resp := create_response "END"
          "Registration reset. Please redial the code to start fresh registration." }
    else if user.status = "failed" then
      retry_payment db env user
    else
      confirm_payment db env user

/-- `USSDHandler.handle_registered_user_flow`: read-only menu for
registered users; both valid choices terminate with the same
acknowledgement. -/
def handle_registered_user_flow (db : DB) (parts : List String) : Out :=
  if parts.length = 0 then
    { db := db, resp := create_response "CON"
        "Welcome back to Yofarm Hub B2B\n1. Buy produce or service\n2. Sell produce or service" }
  else
    let choice := parts.getD 0 ""
    if choice ≠ "1" ∧ choice ≠ "2" then
      { db := db, resp := create_response "END" "Invalid option. Session ended." }
    else
      { db := db, resp := create_response "END"
          ("Thank you for partnering with Yofarm Hub B2B. We'll get back ASAP. Inquiries: " ++
           INQUIRY_PHONE) }

/-- `USSDHandler.handle_ussd_request`: parse the accumulated text, fetch
the user and dispatch on the persisted lifecycle status. -/
def handle_ussd_request (db : DB) (env : PayEnv) (phone_number : String)
    (text : Option String) : Out :=
  let parts := parse_text text
  match get_user db phone_number with
  | none => handle_new_user_flow phone_number db env parts
  | some user =>
      if user.status = "new" then
        handle_new_user_flow phone_number db env parts
      else if user.status = "pending" ∨ user.status = "failed" then
        handle_incomplete_registration phone_number db env parts user
      else if user.status = "registered" then
        handle_registered_user_flow db parts
      else
        { db := db, resp := create_response "END"
            "Service temporarily unavailable. Please try again later." }

/-! ### Shared lemmas and sample data -/

/-- The store with no user documents. -/
def emptyDB : DB := fun _ => none

/-- A provider environment whose calls all succeed. -/
def okEnv : PayEnv := ⟨⟨true, "TX-1"⟩, true, "Success"⟩

/-- The first element surviving `dropWhile p` does not satisfy `p`. -/
theorem head_of_dropWhile_eq_cons {α : Type} {p : α → Bool} :
    ∀ {l : List α} {c : α} {cs : List α}, l.dropWhile p = c :: cs → p c = false := by
  intro l
  induction l with
  | nil =>
    intro c cs h
    simp at h
  | cons a as ih =>
    intro c cs h
    rw [List.dropWhile_cons] at h
    by_cases hpa : p a = true
    · rw [if_pos hpa] at h
      exact ih h
    · rw [if_neg hpa] at h
      cases h
      simpa using hpa

/-- Stripping never yields the one-character string `" "`: the result of
dropping whitespace from both ends cannot begin with a space. -/
theorem pyStrip_ne_space (t : String) : pyStrip t ≠ " " := by
  intro h
  have hd : (((t.toList.dropWhile Char.isWhitespace).reverse.dropWhile
      Char.isWhitespace).reverse) = [' '] := by
    have h2 := congrArg String.data h
    simpa [pyStrip] using h2
  have h3 : ((t.toList.dropWhile Char.isWhitespace).reverse.dropWhile
      Char.isWhitespace) = [' '] := by
    have h4 := congrArg List.reverse hd
    simpa using h4
  have h5 : Char.isWhitespace ' ' = false := head_of_dropWhile_eq_cons h3
  simp at h5

/-- `handle_registered_user_flow` never writes to the store. -/
theorem handle_registered_user_flow_db (db : DB) (parts : List String) :
    (handle_registered_user_flow db parts).db = db := by
  unfold handle_registered_user_flow
  split
  · rfl
  · dsimp only
    split
    · rfl
    · rfl

/-! ### Claims -/

/-- C8: the input segmenter maps a missing raw text, the empty string and
every whitespace-only raw text (i.e. every text that is empty after
stripping) to the empty token sequence; every other raw text yields the
ordered token sequence obtained by splitting the stripped text on the
`*` delimiter, one token per keystroke-submission. -/
theorem C8_parse_text_segmentation :
    parse_text none = [] ∧
    (∀ t : String, pyStrip t = "" → parse_text (some t) = []) ∧
    (∀ t : String, pyStrip t ≠ "" →
      parse_text (some t) = pySplit (pyStrip t) '*') := by
  refine ⟨rfl, ?_, ?_⟩
  · intro t ht
    simp [parse_text, ht]
  · intro t ht
    simp [parse_text, ht, pyStrip_ne_space t]

/-- C8 witness: a whitespace-only raw text segments to no tokens, and a
three-entry accumulated text segments to its three tokens. -/
theorem C8_witness :
    parse_text (some "  ") = [] ∧
    parse_text (some "1*Jane Doe*1") = pySplit (pyStrip "1*Jane Doe*1") '*' :=
  ⟨C8_parse_text_segmentation.2.1 "  " (by decide),
   C8_parse_text_segmentation.2.2 "1*Jane Doe*1" (by decide)⟩

/-- C4: every provider status string whose lowercase form is not one of
`success`, `failed`, `pending`, `senttovendor` maps to the local status
`failed`; in particular it never maps to `registered`. -/
theorem C4_unknown_provider_status_fails_closed (s : String)
    (h1 : pyLower s ≠ "success") (h2 : pyLower s ≠ "failed")
    (h3 : pyLower s ≠ "pending") (h4 : pyLower s ≠ "senttovendor") :
    check_transaction_status_map s = "failed" ∧
    check_transaction_status_map s ≠ "registered" := by
  unfold check_transaction_status_map status_mapping
  rw [if_neg h1, if_neg h2, if_neg h3, if_neg h4]
  exact ⟨rfl, by decide⟩

/-- C4 witness: the unrecognized provider status `"Completed"` maps to
`failed`, not `registered`. -/
theorem C4_witness :
    check_transaction_status_map "Completed" = "failed" ∧
    check_transaction_status_map "Completed" ≠ "registered" :=
  C4_unknown_provider_status_fails_closed "Completed"
    (by decide) (by decide) (by decide) (by decide)

/-- C9: requesting confirmation for a user whose stored transaction id is
empty terminates with the no-transaction message, makes no status-check
call to the provider, and leaves the store untouched. -/
theorem C9_confirm_without_transaction (db : DB) (env : PayEnv) (user : UserRec)
    (h : user.transaction_id = "") :
    (confirm_payment db env user).resp =
      create_response "END" "No transaction found. Please restart registration." ∧
    (confirm_payment db env user).statusChecks = 0 ∧
    (confirm_payment db env user).db = db := by
  refine ⟨?_, ?_, ?_⟩ <;> simp [confirm_payment, h]

/-- C9 witness: a pending user with an empty transaction id. -/
theorem C9_witness :
    (confirm_payment emptyDB okEnv
        { phone := "256700000009", status := "pending" }).resp =
      create_response "END" "No transaction found. Please restart registration." ∧
    (confirm_payment emptyDB okEnv
        { phone := "256700000009", status := "pending" }).statusChecks = 0 ∧
    (confirm_payment emptyDB okEnv
        { phone := "256700000009", status := "pending" }).db = emptyDB :=
  C9_confirm_without_transaction emptyDB okEnv
    { phone := "256700000009", status := "pending" } rfl

/-- A registered sample user and a store containing only that user. -/
def registeredUser : UserRec :=
  { phone := "256700000003", name := "Jane Doe", role := "Farmer",
    location := "Kampala", package := "Yofarm Access",
    status := "registered", transaction_id := "TX-3" }

/-- Store holding exactly `registeredUser`. -/
def dbRegistered : DB :=
  fun p => if p = "256700000003" then some registeredUser else none

/-- C2: once a user's persisted status is `registered`, handling any USSD
callback leaves the store word-for-word unchanged — the registered-user
flow only reads the record, so no reachable handler path performs a
status write on a registered user. -/
theorem C2_registered_is_sink (db : DB) (env : PayEnv) (phone : String)
    (text : Option String) (user : UserRec)
    (hdb : db phone = some user) (hreg : user.status = "registered") :
    (handle_ussd_request db env phone text).db = db := by
  unfold handle_ussd_request get_user
  rw [hdb]
  simp only [hreg]
  simp [handle_registered_user_flow_db]

/-- C2 witness: a callback with input `"1"` from a registered user leaves
the store unchanged. -/
theorem C2_witness :
    (handle_ussd_request dbRegistered okEnv "256700000003" (some "1")).db =
      dbRegistered :=
  C2_registered_is_sink dbRegistered okEnv "256700000003" (some "1")
    registeredUser (by decide) rfl

/-- A failed sample user with an outstanding transaction id, and a store
containing only that user. -/
def failedUser : UserRec :=
  { phone := "256700000001", name := "Jane Doe", role := "Farmer",
    location := "Kampala", package := "Yofarm Access",
    status := "failed", transaction_id := "TX-OLD" }

/-- Store holding exactly `failedUser`. -/
def dbFailed : DB :=
  fun p => if p = "256700000001" then some failedUser else none

/-- A provider environment whose collection initiation succeeds but
reports an empty (absent) transaction id. -/
def emptyIdEnv : PayEnv := ⟨⟨true, ""⟩, true, "Pending"⟩

/-- C5 counterexample: a retry the provider reports as successful but
with an empty transaction id leaves the previous outstanding
`transaction_id` in place (the guarded status update skips the empty id),
so the stored id does not equal the id returned for the new attempt. -/
theorem C5_counterexample :
    emptyIdEnv.init.success = true ∧
    ((retry_payment dbFailed emptyIdEnv failedUser).db
        "256700000001").map UserRec.transaction_id = some "TX-OLD" ∧
    some "TX-OLD" ≠ some emptyIdEnv.init.transaction_id := by
  refine ⟨rfl, by decide, by decide⟩

/-- C5 (amended): for every retry the provider reports as successful with
a non-empty transaction id, the stored `transaction_id` afterwards equals
the id returned for that attempt, overwriting the previous one; for a
fresh initiation reported successful the stored id always equals the
returned id (even when empty, since the whole record is written). -/
theorem C5_transaction_overwrite (db : DB) (env : PayEnv) (user : UserRec)
    (hdb : db user.phone = some user)
    (hs : env.init.success = true) :
    (env.init.transaction_id ≠ "" →
      ((retry_payment db env user).db user.phone).map UserRec.transaction_id =
        some env.init.transaction_id) ∧
    ((initiate_payment_for_new_user db env user).db user.phone).map
        UserRec.transaction_id = some env.init.transaction_id := by
  constructor
  · intro hid
    simp [retry_payment, hs, update_user_status, hdb, hid]
  · simp [initiate_payment_for_new_user, hs, save_user]

/-- C5 witness: a successful retry with the fresh id `"TX-NEW"` stores
exactly `"TX-NEW"`, overwriting `"TX-OLD"`. -/
theorem C5_witness :
    ((("TX-NEW" : String) ≠ "" →
      ((retry_payment dbFailed ⟨⟨true, "TX-NEW"⟩, true, "Pending"⟩ failedUser).db
          "256700000001").map UserRec.transaction_id = some "TX-NEW") ∧
     ((initiate_payment_for_new_user dbFailed ⟨⟨true, "TX-NEW"⟩, true, "Pending"⟩
          failedUser).db "256700000001").map UserRec.transaction_id =
       some "TX-NEW") :=
  C5_transaction_overwrite dbFailed ⟨⟨true, "TX-NEW"⟩, true, "Pending"⟩
    failedUser (by decide) rfl

/-- C7: for a user whose status is `pending` or `failed`, entering `"2"`
at the incomplete-registration menu deletes the record entirely and
terminates with the restart instruction; a subsequent fresh callback
(empty text) from that phone then produces exactly the response a fresh
callback produces for any phone the store has never seen. -/
theorem C7_restart_behaves_like_fresh (db : DB) (env env2 env3 : PayEnv)
    (phone : String) (user : UserRec) (db2 : DB) (phone2 : String)
    (hdb : db phone = some user)
    (hst : user.status = "pending" ∨ user.status = "failed")
    (hfresh : db2 phone2 = none) :
    (handle_ussd_request db env phone (some "2")).db phone = none ∧
    (handle_ussd_request db env phone (some "2")).resp =
      create_response "END"
        "Registration reset. Please redial the code to start fresh registration." ∧
    (handle_ussd_request (handle_ussd_request db env phone (some "2")).db
        env2 phone (some "")).resp =
      (handle_ussd_request db2 env3 phone2 (some "")).resp := by
  have hmain : handle_ussd_request db env phone (some "2") =
      { db := delete_user db phone,
        resp := create_response "END"
          "Registration reset. Please redial the code to start fresh registration." } := by
    unfold handle_ussd_request get_user
    rw [hdb]
    rcases hst with h | h <;>
      simp [h, parse_text, pyStrip, pySplit, splitCharList,
        handle_incomplete_registration]
  have hrhs : (handle_ussd_request db2 env3 phone2 (some "")).resp =
      create_response "CON" "Welcome to Yofarm Hub B2B\n1. Register\n2. Exit" := by
    unfold handle_ussd_request get_user
    rw [hfresh]
    simp [parse_text, pyStrip, handle_new_user_flow]
  refine ⟨?_, ?_, ?_⟩
  · rw [hmain]
    simp [delete_user]
  · rw [hmain]
  · rw [hmain, hrhs]
    unfold handle_ussd_request get_user
    simp [delete_user, parse_text, pyStrip, handle_new_user_flow]

/-- A pending sample user with an outstanding transaction id. -/
def pendingUser : UserRec :=
  { phone := "256700000004", name := "Jane Doe", role := "Farmer",
    location := "Kampala", package := "Yofarm Access",
    status := "pending", transaction_id := "TX-4" }

/-- Store holding exactly `pendingUser`. -/
def dbPending : DB :=
  fun p => if p = "256700000004" then some pendingUser else none

/-- C7 witness: the pending user at `256700000004` restarts; the phone
`256700000099` has never been seen. -/
theorem C7_witness :
    (handle_ussd_request dbPending okEnv "256700000004" (some "2")).db
      "256700000004" = none ∧
    (handle_ussd_request dbPending okEnv "256700000004" (some "2")).resp =
      create_response "END"
        "Registration reset. Please redial the code to start fresh registration." ∧
    (handle_ussd_request
        (handle_ussd_request dbPending okEnv "256700000004" (some "2")).db
        okEnv "256700000004" (some "")).resp =
      (handle_ussd_request emptyDB okEnv "256700000099" (some "")).resp :=
  C7_restart_behaves_like_fresh dbPending okEnv okEnv okEnv "256700000004"
    pendingUser emptyDB "256700000099" (by decide) (Or.inl rfl) rfl

/-- C1: every valid input sequence reaching step 7 of the new-registration
flow with final token `"1"` invokes the payment initiation call exactly
once, and the persisted record afterwards has status `pending` with the
provider transaction id stored (initiation success) or status `failed`
(initiation failure) — never `new` and never absent. -/
theorem C1_step7_payment_initiation (phone : String) (db : DB) (env : PayEnv)
    (n r role l p pkg : String)
    (hn : pyStrip n ≠ "") (hr : roles_map r = some role)
    (hl : pyStrip l ≠ "") (hp : package_map p = some pkg) :
    (handle_new_user_flow phone db env ["1", n, r, l, "1", p, "1"]).initiations = 1 ∧
    (env.init.success = true →
      (handle_new_user_flow phone db env ["1", n, r, l, "1", p, "1"]).db phone =
        some { phone := phone, name := pyStrip n, role := role,
               location := pyStrip l, package := pkg,
               status := "pending", transaction_id := env.init.transaction_id }) ∧
    (env.init.success = false →
      (handle_new_user_flow phone db env ["1", n, r, l, "1", p, "1"]).db phone =
        some { phone := phone, name := pyStrip n, role := role,
               location := pyStrip l, package := pkg,
               status := "failed", transaction_id := "" }) := by
  have hflow : handle_new_user_flow phone db env ["1", n, r, l, "1", p, "1"] =
      initiate_payment_for_new_user db env
        { phone := phone, name := pyStrip n, role := role,
          location := pyStrip l, package := pkg } := by
    simp [handle_new_user_flow, hn, hr, hl, hp]
  rw [hflow]
  refine ⟨?_, ?_, ?_⟩
  · cases hsucc : env.init.success <;> simp [initiate_payment_for_new_user, hsucc]
  · intro hsucc
    simp [initiate_payment_for_new_user, hsucc, save_user]
  · intro hsucc
    simp [initiate_payment_for_new_user, hsucc, save_user]

/-- C1 witness: the canonical successful registration
`["1","Jane Doe","1","Kampala","1","1","1"]` against a provider that
accepts the collection with id `"TX-1"`. -/
theorem C1_witness :
    (handle_new_user_flow "256700000010" emptyDB okEnv
        ["1", "Jane Doe", "1", "Kampala", "1", "1", "1"]).initiations = 1 ∧
    (okEnv.init.success = true →
      (handle_new_user_flow "256700000010" emptyDB okEnv
          ["1", "Jane Doe", "1", "Kampala", "1", "1", "1"]).db "256700000010" =
        some { phone := "256700000010", name := pyStrip "Jane Doe",
               role := "Farmer", location := pyStrip "Kampala",
               package := "Yofarm Access", status := "pending",
               transaction_id := okEnv.init.transaction_id }) ∧
    (okEnv.init.success = false →
      (handle_new_user_flow "256700000010" emptyDB okEnv
          ["1", "Jane Doe", "1", "Kampala", "1", "1", "1"]).db "256700000010" =
        some { phone := "256700000010", name := pyStrip "Jane Doe",
               role := "Farmer", location := pyStrip "Kampala",
               package := "Yofarm Access", status := "failed",
               transaction_id := "" }) :=
  C1_step7_payment_initiation "256700000010" emptyDB okEnv "Jane Doe" "1"
    "Farmer" "Kampala" "1" "Yofarm Access" (by decide) rfl (by decide) rfl

/-- C3: in the new-registration flow, a blank-after-stripping token at a
free-text step always yields a CONTINUE response re-prompting the same
field (never terminating, whatever later tokens follow); a non-blank
free-text token never terminates the session at its step; and an
unmapped token at any menu step — register/exit, role, terms, package,
payment confirmation — always yields a TERMINATE response. -/
theorem C3_malformed_token_policy :
    (∀ (phone : String) (db : DB) (env : PayEnv) (n : String) (rest : List String),
      pyStrip n = "" →
      (handle_new_user_flow phone db env ("1" :: n :: rest)).resp =
        create_response "CON" "Enter your full name:") ∧
    (∀ (phone : String) (db : DB) (env : PayEnv) (n r role l : String)
        (rest : List String),
      pyStrip n ≠ "" → roles_map r = some role → pyStrip l = "" →
      (handle_new_user_flow phone db env ("1" :: n :: r :: l :: rest)).resp =
        create_response "CON" "Enter your Location (District):") ∧
    (∀ (phone : String) (db : DB) (env : PayEnv) (n : String),
      pyStrip n ≠ "" →
      (handle_new_user_flow phone db env ["1", n]).resp.response_type = "CON") ∧
    (∀ (phone : String) (db : DB) (env : PayEnv) (n r role l : String),
      pyStrip n ≠ "" → roles_map r = some role → pyStrip l ≠ "" →
      (handle_new_user_flow phone db env ["1", n, r, l]).resp.response_type = "CON") ∧
    (∀ (phone : String) (db : DB) (env : PayEnv) (t : String) (rest : List String),
      t ≠ "1" → t ≠ "2" →
      (handle_new_user_flow phone db env (t :: rest)).resp.response_type = "END") ∧
    (∀ (phone : String) (db : DB) (env : PayEnv) (n r : String) (rest : List String),
      pyStrip n ≠ "" → roles_map r = none →
      (handle_new_user_flow phone db env ("1" :: n :: r :: rest)).resp.response_type =
        "END") ∧
    (∀ (phone : String) (db : DB) (env : PayEnv) (n r role l d : String)
        (rest : List String),
      pyStrip n ≠ "" → roles_map r = some role → pyStrip l ≠ "" →
      d ≠ "1" → d ≠ "2" →
      (handle_new_user_flow phone db env
          ("1" :: n :: r :: l :: d :: rest)).resp.response_type = "END") ∧
    (∀ (phone : String) (db : DB) (env : PayEnv) (n r role l p : String)
        (rest : List String),
      pyStrip n ≠ "" → roles_map r = some role → pyStrip l ≠ "" →
      package_map p = none →
      (handle_new_user_flow phone db env
          ("1" :: n :: r :: l :: "1" :: p :: rest)).resp.response_type = "END") ∧
    (∀ (phone : String) (db : DB) (env : PayEnv) (n r role l p pkg c : String)
        (rest : List String),
      pyStrip n ≠ "" → roles_map r = some role → pyStrip l ≠ "" →
      package_map p = some pkg → c ≠ "1" → c ≠ "2" →
      (handle_new_user_flow phone db env
          ("1" :: n :: r :: l :: "1" :: p :: c :: rest)).resp.response_type =
        "END") := by
  refine ⟨?_, ?_, ?_, ?_, ?_, ?_, ?_, ?_, ?_⟩
  · intro phone db env n rest hn
    simp [handle_new_user_flow, hn]
  · intro phone db env n r role l rest hn hr hl
    simp [handle_new_user_flow, hn, hr, hl]
  · intro phone db env n hn
    simp [handle_new_user_flow, create_response, hn]
  · intro phone db env n r role l hn hr hl
    simp [handle_new_user_flow, create_response, hn, hr, hl]
  · intro phone db env t rest ht1 ht2
    simp [handle_new_user_flow, create_response, ht1, ht2]
  · intro phone db env n r rest hn hr
    simp [handle_new_user_flow, create_response, hn, hr]
  · intro phone db env n r role l d rest hn hr hl hd1 hd2
    simp [handle_new_user_flow, create_response, hn, hr, hl, hd1, hd2]
  · intro phone db env n r role l p rest hn hr hl hp
    simp [handle_new_user_flow, create_response, hn, hr, hl, hp]
  · intro phone db env n r role l p pkg c rest hn hr hl hp hc1 hc2
    simp [handle_new_user_flow, create_response, hn, hr, hl, hp, hc1, hc2]

/-- C3 witness: one concrete instance per step — blank name and location
re-prompt as CON; non-blank name and location continue; out-of-range
tokens at the register/exit, role, terms, package and payment menus all
terminate. -/
theorem C3_witness :
    (handle_new_user_flow "256700000011" emptyDB okEnv ["1", " ", "x"]).resp =
      create_response "CON" "Enter your full name:" ∧
    (handle_new_user_flow "256700000011" emptyDB okEnv
        ["1", "Jane", "2", " ", "x"]).resp =
      create_response "CON" "Enter your Location (District):" ∧
    (handle_new_user_flow "256700000011" emptyDB okEnv
        ["1", "Jane"]).resp.response_type = "CON" ∧
    (handle_new_user_flow "256700000011" emptyDB okEnv
        ["1", "Jane", "2", "Gulu"]).resp.response_type = "CON" ∧
    (handle_new_user_flow "256700000011" emptyDB okEnv
        ["9"]).resp.response_type = "END" ∧
    (handle_new_user_flow "256700000011" emptyDB okEnv
        ["1", "Jane", "9"]).resp.response_type = "END" ∧
    (handle_new_user_flow "256700000011" emptyDB okEnv
        ["1", "Jane", "2", "Gulu", "9"]).resp.response_type = "END" ∧
    (handle_new_user_flow "256700000011" emptyDB okEnv
        ["1", "Jane", "2", "Gulu", "1", "9"]).resp.response_type = "END" ∧
    (handle_new_user_flow "256700000011" emptyDB okEnv
        ["1", "Jane", "2", "Gulu", "1", "1", "9"]).resp.response_type = "END" :=
  ⟨C3_malformed_token_policy.1 "256700000011" emptyDB okEnv " " ["x"] (by decide),
   C3_malformed_token_policy.2.1 "256700000011" emptyDB okEnv "Jane" "2" "Buyer"
     " " ["x"] (by decide) rfl (by decide),
   C3_malformed_token_policy.2.2.1 "256700000011" emptyDB okEnv "Jane" (by decide),
   C3_malformed_token_policy.2.2.2.1 "256700000011" emptyDB okEnv "Jane" "2"
     "Buyer" "Gulu" (by decide) rfl (by decide),
   C3_malformed_token_policy.2.2.2.2.1 "256700000011" emptyDB okEnv "9" []
     (by decide) (by decide),
   C3_malformed_token_policy.2.2.2.2.2.1 "256700000011" emptyDB okEnv "Jane" "9"
     [] (by decide) rfl,
   C3_malformed_token_policy.2.2.2.2.2.2.1 "256700000011" emptyDB okEnv "Jane"
     "2" "Buyer" "Gulu" "9" [] (by decide) rfl (by decide) (by decide) (by decide),
   C3_malformed_token_policy.2.2.2.2.2.2.2.1 "256700000011" emptyDB okEnv "Jane"
     "2" "Buyer" "Gulu" "9" [] (by decide) rfl (by decide) rfl,
   C3_malformed_token_policy.2.2.2.2.2.2.2.2 "256700000011" emptyDB okEnv "Jane"
     "2" "Buyer" "Gulu" "1" "Yofarm Access" "9" [] (by decide) rfl (by decide)
     rfl (by decide) (by decide)⟩

/-- C10 counterexample: the claim quantifies over every input list of
length at least 3 with a blank second token, but when the first token is
not `"1"` the handler never reaches the name step: `["2", "", "x"]`
terminates with the goodbye message instead of re-prompting the name. -/
theorem C10_counterexample :
    (["2", "", "x"] : List String).length ≥ 3 ∧ pyStrip "" = "" ∧
    (handle_new_user_flow "256700000012" emptyDB okEnv ["2", "", "x"]).resp ≠
      create_response "CON" "Enter your full name:" := by
  refine ⟨by decide, rfl, by decide⟩

/-- C10 (amended): for every input list of length at least 3 whose first
token is `"1"` and whose second token is blank after stripping, the
handler returns the CONTINUE name prompt without touching the store or
the payment provider, and the result is independent of every later
token — so a blank name can never be corrected within the same session;
likewise a blank location at position 4 re-prompts the location
regardless of the tokens that follow. -/
theorem C10_blank_free_text_loops (phone : String) (db : DB) (env : PayEnv)
    (n : String) (rest : List String)
    (_hlen : rest.length ≥ 1) (hn : pyStrip n = "") :
    (handle_new_user_flow phone db env ("1" :: n :: rest) =
      { db := db, resp := create_response "CON" "Enter your full name:" }) ∧
    (∀ rest' : List String,
      handle_new_user_flow phone db env ("1" :: n :: rest') =
        handle_new_user_flow phone db env ("1" :: n :: rest)) ∧
    (∀ (n' r role l : String) (rest2 : List String),
      pyStrip n' ≠ "" → roles_map r = some role → pyStrip l = "" →
      handle_new_user_flow phone db env ("1" :: n' :: r :: l :: rest2) =
        { db := db,
          resp := create_response "CON" "Enter your Location (District):" }) := by
  refine ⟨?_, ?_, ?_⟩
  · simp [handle_new_user_flow, hn]
  · intro rest'
    simp [handle_new_user_flow, hn]
  · intro n' r role l rest2 hn' hr hl
    simp [handle_new_user_flow, hn', hr, hl]

/-- C10 witness: blank name at `["1", " ", "Jane"]` — the third entry is
never consumed as the name. -/
theorem C10_witness :
    (handle_new_user_flow "256700000013" emptyDB okEnv ["1", " ", "Jane"] =
      { db := emptyDB, resp := create_response "CON" "Enter your full name:" }) ∧
    (∀ rest' : List String,
      handle_new_user_flow "256700000013" emptyDB okEnv ("1" :: " " :: rest') =
        handle_new_user_flow "256700000013" emptyDB okEnv ["1", " ", "Jane"]) ∧
    (∀ (n' r role l : String) (rest2 : List String),
      pyStrip n' ≠ "" → roles_map r = some role → pyStrip l = "" →
      handle_new_user_flow "256700000013" emptyDB okEnv
          ("1" :: n' :: r :: l :: rest2) =
        { db := emptyDB,
          resp := create_response "CON" "Enter your Location (District):" }) :=
  C10_blank_free_text_loops "256700000013" emptyDB okEnv " " ["Jane"]
    (by decide) (by decide)

/-- Reading back a record after a status-only update: the status changes,
everything else (in particular the transaction id) is untouched. -/
theorem update_user_status_lookup (db : DB) (phone s : String) (u : UserRec)
    (hdb : db phone = some u) :
    update_user_status db phone s "" phone = some { u with status := s } := by
  simp [update_user_status, hdb]

/-- `confirm_payment`'s response depends only on the provider environment
and the user's name, role, location and transaction id — not on the
store or the user's status. -/
theorem confirm_payment_resp_congr (db db' : DB) (env : PayEnv) (u u' : UserRec)
    (hn : u'.name = u.name) (hr : u'.role = u.role) (hl : u'.location = u.location)
    (ht : u'.transaction_id = u.transaction_id) :
    (confirm_payment db' env u').resp = (confirm_payment db env u).resp := by
  unfold confirm_payment
  rw [ht, hn, hr, hl]
  by_cases h1 : u.transaction_id = ""
  · simp [h1]
  · by_cases h2 : env.statusReachable = false
    · simp [h1, h2]
    · by_cases h3 : check_transaction_status_map env.providerStatus = "registered"
      · simp [h1, h2, h3]
      · by_cases h4 : check_transaction_status_map env.providerStatus = "failed"
        · simp [h1, h2, h3, h4]
        · simp [h1, h2, h3, h4]

/-- With a stored transaction id and a reachable provider,
`confirm_payment` writes exactly the mapped status. -/
theorem confirm_payment_db_eq (db : DB) (env : PayEnv) (u : UserRec)
    (h1 : u.transaction_id ≠ "") (h2 : env.statusReachable = true) :
    (confirm_payment db env u).db =
      update_user_status db u.phone
        (check_transaction_status_map env.providerStatus) "" := by
  by_cases h3 : check_transaction_status_map env.providerStatus = "registered" <;>
    by_cases h4 : check_transaction_status_map env.providerStatus = "failed" <;>
      simp [confirm_payment, h1, h2, h3, h4]

/-- C6: payment confirmation is idempotent — confirming twice in
immediate succession on a pending user, with the provider reporting the
same status both times and the second call acting on the re-fetched
record, yields the same terminal message both times and leaves the
stored transaction id unchanged. -/
theorem C6_confirm_idempotent (db : DB) (env : PayEnv) (user user2 : UserRec)
    (hdb : db user.phone = some user)
    (hpend : user.status = "pending")
    (h2 : (confirm_payment db env user).db user.phone = some user2) :
    (confirm_payment (confirm_payment db env user).db env user2).resp.message =
      (confirm_payment db env user).resp.message ∧
    ((confirm_payment (confirm_payment db env user).db env user2).db
        user.phone).map UserRec.transaction_id = some user.transaction_id := by
  by_cases hT : user.transaction_id = ""
  · have hdb1 : (confirm_payment db env user).db = db := by
      simp [confirm_payment, hT]
    rw [hdb1] at h2 ⊢
    rw [hdb] at h2
    have hu2 : user2 = user := (Option.some.inj h2).symm
    subst hu2
    refine ⟨rfl, ?_⟩
    rw [hdb1, hdb]
    rfl
  · cases hR : env.statusReachable with
    | false =>
      have hdb1 : (confirm_payment db env user).db = db := by
        simp [confirm_payment, hT, hR]
      rw [hdb1] at h2 ⊢
      rw [hdb] at h2
      have hu2 : user2 = user := (Option.some.inj h2).symm
      subst hu2
      refine ⟨rfl, ?_⟩
      rw [hdb1, hdb]
      rfl
    | true =>
      have hdb1 : (confirm_payment db env user).db =
          update_user_status db user.phone
            (check_transaction_status_map env.providerStatus) "" :=
        confirm_payment_db_eq db env user hT hR
      have hlook : update_user_status db user.phone
          (check_transaction_status_map env.providerStatus) "" user.phone =
          some { user with status := check_transaction_status_map env.providerStatus } :=
        update_user_status_lookup db user.phone _ user hdb
      rw [hdb1, hlook] at h2
      have hu2 : user2 =
          { user with status := check_transaction_status_map env.providerStatus } :=
        (Option.some.inj h2).symm
      subst hu2
      constructor
      · exact congrArg Resp.message
          (confirm_payment_resp_congr db _ env user _ rfl rfl rfl rfl)
      · have hT2 : ({ user with
            status := check_transaction_status_map env.providerStatus
          } : UserRec).transaction_id ≠ "" := hT
        have hdb2 := confirm_payment_db_eq (confirm_payment db env user).db env
          { user with status := check_transaction_status_map env.providerStatus }
          hT2 hR
        rw [hdb2]
        have hlook2 := update_user_status_lookup (confirm_payment db env user).db
          user.phone (check_transaction_status_map env.providerStatus)
          { user with status := check_transaction_status_map env.providerStatus }
          (by rw [hdb1, hlook])
        rw [show ({ user with
              status := check_transaction_status_map env.providerStatus
            } : UserRec).phone = user.phone from rfl] at hlook2 ⊢
        rw [hlook2]
        rfl

/-- C6 witness: the pending user with transaction `"TX-4"` confirmed
twice against a provider answering `"Success"` both times. -/
theorem C6_witness :
    (confirm_payment (confirm_payment dbPending okEnv pendingUser).db okEnv
        { pendingUser with status := "registered" }).resp.message =
      (confirm_payment dbPending okEnv pendingUser).resp.message ∧
    ((confirm_payment (confirm_payment dbPending okEnv pendingUser).db okEnv
        { pendingUser with status := "registered" }).db
        "256700000004").map UserRec.transaction_id = some "TX-4" :=
  C6_confirm_idempotent dbPending okEnv pendingUser
    { pendingUser with status := "registered" } (by decide) rfl (by decide)

end Ussd
